import Mathlib

/-!
Verification development for the leagueofleagues_client companion app
(src/leagueofleagues_client.py).

Strings are modelled as lists of characters (`Str`), so that the Python
string operations used by the client (`lower`, `upper`, `strip`,
`split(sep, 1)`, `startswith`, substring membership) become structurally
recursive Lean functions that are easy to reason about and to evaluate.

Stateful code (the module-level globals `is_ready`, `current_phase`,
`summoner_name`, `summoner_tag`, `region`) is modelled by explicit state
passing; event handlers that perform several global assignments with
awaits in between are additionally modelled as traces of the states
observable after each atomic assignment, since other threads read these
globals concurrently.
-/

namespace LoLClient

/-- Python strings, modelled as lists of characters. -/
abbrev Str := List Char

/-- Python `str.lower()` (per-character lowering). -/
def lowerStr (s : Str) : Str := s.map Char.toLower

/-- Python `str.upper()` (per-character uppering). -/
def upperStr (s : Str) : Str := s.map Char.toUpper

/-- Python `str.strip()`: drop whitespace from both ends. -/
def pyStrip (s : Str) : Str :=
  ((s.dropWhile Char.isWhitespace).reverse.dropWhile Char.isWhitespace).reverse

/-- Python `s.split(sep, 1)` followed by unpacking into exactly two
variables: yields the parts before and after the first occurrence of
`sep`, and `none` when `sep` does not occur (in the source that unpacking
raises `ValueError`, caught by the surrounding `except`). -/
def splitFirst (sep : Char) : Str → Option (Str × Str)
  | [] => none
  | c :: cs =>
    if c = sep then some ([], cs)
    else
      match splitFirst sep cs with
      | none => none
      | some (l, r) => some (c :: l, r)

/-- Result of parsing the `/joinmatch` response body inside
`join_game_action` (src lines 348-350): either the extracted
target name, tag and join credential, or the malformed-response
failure (the `ValueError` from tuple unpacking, reported via the
surrounding `except` as an error dialog, i.e. `MalformedResponseError`). -/
inductive JoinGameParse where
  | ok (name tag cred : Str)
  | malformed
deriving DecidableEq

/-- Embedding of the response parsing in `join_game_action`:
`response_data = resp.text.strip()`;
`summoner_info, pin = response_data.split(",", 1)`;
`summoner_name_from_server, tag = summoner_info.split("#", 1)`. -/
def parse_join_response (body : Str) : JoinGameParse :=
  match splitFirst ',' (pyStrip body) with
  | none => .malformed
  | some (left, pin) =>
    match splitFirst '#' left with
    | none => .malformed
    | some (name, tag) => .ok name tag pin

/-- The `/lol-gameflow/v1/gameflow-phase` payloads: `await resp.json()` and
`event.data` may be a string (the usual case) or any other JSON shape;
the handler only ever branches on `isinstance(event.data, str)`, so other
shapes are collapsed into one constructor. -/
inductive PyJson where
  | str (s : Str)
  | other
deriving DecidableEq

/-- The module-level globals that make up the shared session state:
`is_ready`, `current_phase`, `summoner_name`, `summoner_tag`, `region`
(src lines 61-65). `current_phase` holds whatever `event.data` or
`await resp.json()` produced, hence `Option PyJson`. -/
structure SessionState where
  is_ready : Bool
  current_phase : Option PyJson
  summoner_name : Option Str
  summoner_tag : Option Str
  region : Option Str
deriving DecidableEq

/-- The initial values of the globals at module load. -/
def initState : SessionState :=
  { is_ready := false, current_phase := none,
    summoner_name := none, summoner_tag := none, region := none }

/-- Outcome of one HTTP request made with `requests.get`: either a
response with a status code and a text body, or a raised network
exception. -/
inductive HttpResult where
  | ok (status : Nat) (text : Str)
  | netError
deriving DecidableEq

/-- Python `needle in hay` on strings: `needle` occurs as a contiguous
substring of `hay`. -/
def containsSub (needle : Str) : Str → Bool
  | [] => needle.isEmpty
  | c :: cs => needle.isPrefixOf (c :: cs) || containsSub needle cs

/-- The marker checked by `authenticate`: `"User not found" in resp.text`. -/
def notFoundMarker : Str := ("User not found".toList)

/-- What `authenticate` does, observably: the returned boolean, plus
whether the definitive not-registered log line
(`"User not registered, return False"`) was printed. -/
structure AuthResult where
  result : Bool
  loggedNotRegistered : Bool
deriving DecidableEq

/-- Embedding of `authenticate(discord_id)` (src lines 242-256) as a
function of the HTTP outcome of `GET /auth`: a 404 whose body contains
the not-found marker returns `False` (after logging the not-registered
message); otherwise the function returns `status_code == 200`; any
`requests` exception is caught and yields `False`. -/
def authenticate : HttpResult → AuthResult
  | .netError => { result := false, loggedNotRegistered := false }
  | .ok status text =>
    if status == 404 && containsSub notFoundMarker text then
      { result := false, loggedNotRegistered := true }
    else
      { result := status == 200, loggedNotRegistered := false }

/-- A visible custom lobby as enumerated by
`GET /lol-lobby/v2/lobby/custom/available`:
only `id` and `ownerDisplayName` are consumed by the client
(`g.get("ownerDisplayName", "")` defaults to `""`, so the field is kept
total with `""` standing for an absent key). -/
structure Lobby where
  id : Str
  ownerDisplayName : Str
deriving DecidableEq

/-- The exact-match predicate of `do_join_lobby` (src lines 382-388):
`g.get("ownerDisplayName", "").lower() == f"SUMMONER #TAG".lower()` —
note the embedded space before `#` in the target. -/
def isExactMatch (summoner tag : Str) (g : Lobby) : Bool :=
  lowerStr g.ownerDisplayName = lowerStr (summoner ++ [' ', '#'] ++ tag)

/-- The fallback predicate of `do_join_lobby` (src lines 391-397):
`g.get("ownerDisplayName", "").lower().startswith(summoner.lower() + "#")`
— no space this time. -/
def isFallbackMatch (summoner : Str) (g : Lobby) : Bool :=
  (lowerStr summoner ++ ['#']).isPrefixOf (lowerStr g.ownerDisplayName)

/-- The lobby selection performed by `do_join_lobby`: first
`next((g for g in games if exact), None)`, and only `if not match` the
fallback `next((g for g in games if startswith), None)`. -/
def findLobbyMatch (games : List Lobby) (summoner tag : Str) : Option Lobby :=
  match games.find? (isExactMatch summoner tag) with
  | some g => some g
  | none => games.find? (isFallbackMatch summoner)

/-- Body of the join POST: `asSpectator = False, password = pin`. -/
structure JoinBody where
  asSpectator : Bool
  password : Str
deriving DecidableEq

/-- One `POST /lol-lobby/v2/lobby/custom/<id>/join` call issued by
`do_join_lobby`, recorded as the lobby id of the endpoint plus the body. -/
structure PostCall where
  lobbyId : Str
  body : JoinBody
deriving DecidableEq

/-- The response to the join POST, as consumed by `do_join_lobby`:
the status, and the `message` field of the JSON error body
(`error_msg.get("message", "Unknown error")` — `none` models an absent
field). -/
structure JoinResp where
  status : Nat
  message : Option Str
deriving DecidableEq

/-- The user-visible outcome of `do_join_lobby`: the not-found error
dialog, the success dialog (which names the target identity), or the
failed-to-join dialog carrying the extracted message. -/
inductive JoinOutcome where
  | lobbyNotFound (summoner tag : Str)
  | success (summoner tag : Str)
  | joinFailed (msg : Str)
deriving DecidableEq

/-- Everything observable about one run of `do_join_lobby`: the join
POST calls it issued, and the dialog it reported. -/
structure DoJoinResult where
  calls : List PostCall
  outcome : JoinOutcome
deriving DecidableEq

/-- The default join-failure message: `"Unknown error"`. -/
def unknownError : Str := ("Unknown error".toList)

/-- Embedding of the coroutine `do_join_lobby` (src lines 374-421) as a
function of the fetched lobby list and of the response the endpoint
would give to the join POST: select a lobby (exact match first, then
the startswith fallback); if none, report the not-found dialog and issue
no join call; otherwise issue exactly one POST with
a body with `asSpectator = False, password = pin` and report success on status
200, else the failure dialog with the message extracted from the error
body (defaulting to `"Unknown error"`). -/
def do_join_lobby (games : List Lobby) (summoner tag pin : Str)
    (resp : JoinResp) : DoJoinResult :=
  match findLobbyMatch games summoner tag with
  | none => { calls := [], outcome := .lobbyNotFound summoner tag }
  | some g =>
    let call : PostCall := { lobbyId := g.id, body := { asSpectator := false, password := pin } }
    if resp.status == 200 then
      { calls := [call], outcome := .success summoner tag }
    else
      { calls := [call], outcome := .joinFailed (resp.message.getD unknownError) }

/-- Observables of the `start_connector` retry loop: how many times
`connector.start()` was invoked, the final value of the `attempts`
counter (which counts failed attempts), whether an attempt succeeded,
and the `time.sleep` delays taken, in order. -/
structure LoopResult where
  starts : Nat
  failures : Nat
  succeeded : Bool
  sleeps : List Nat
deriving DecidableEq

/-- The `while attempts < max_attempts` loop of `start_connector`
(src lines 948-956), with `fuel = max_attempts - attempts` iterations
remaining. `outcome n` tells whether the attempt made while
`attempts = n` succeeds; on success the loop breaks without touching
`attempts`, on failure it increments `attempts` and sleeps 10 seconds. -/
def connectorRetryLoop (outcome : Nat → Bool) : Nat → Nat → LoopResult
  | 0, attempts => { starts := 0, failures := attempts, succeeded := false, sleeps := [] }
  | fuel + 1, attempts =>
    if outcome attempts then
      { starts := 1, failures := attempts, succeeded := true, sleeps := [] }
    else
      let rest := connectorRetryLoop outcome fuel (attempts + 1)
      { starts := rest.starts + 1, failures := rest.failures,
        succeeded := rest.succeeded, sleeps := 10 :: rest.sleeps }

/-- `max_attempts = 30` in `start_connector`. -/
def maxAttempts : Nat := 30

/-- One run of the `start_connector` thread body (src lines 941-962):
the retry loop from `attempts = 0`, followed by
`if attempts >= max_attempts: print("Failed to connect ...")` — the
single exhaustion report. The whole body is wrapped in `try/except`,
so it is modelled as a total function (no crash escapes the thread). -/
structure ConnectorRun where
  loop : LoopResult
  exhaustedReports : Nat
deriving DecidableEq

/-- Embedding of `start_connector` (src lines 941-962). -/
def start_connector (outcome : Nat → Bool) : ConnectorRun :=
  let r := connectorRetryLoop outcome maxAttempts 0
  { loop := r, exhaustedReports := if maxAttempts ≤ r.failures then 1 else 0 }

/-- Trace of the states observable while `fetch_summoner_info`
(src lines 879-903) runs, one entry per global assignment.
`summFetch = some (n, t)` models a 200 response to
`GET /lol-summoner/v1/current-summoner` whose body yields
`gameName = n` and `tagLine = t`; `none` models a non-200 response or a
raised exception (no assignment happens). `regionFetch = some r` models
a 200 response to `GET /riotclient/region-locale` with
`region_data.get("region", "") = r` (assigned uppercased); `none`
models failure (the inner `except` passes). -/
def fetchSummonerTrace (s : SessionState)
    (summFetch : Option (Option Str × Option Str)) (regionFetch : Option Str) :
    List SessionState :=
  match summFetch with
  | none => []
  | some (n, t) =>
    let s1 := { s with summoner_name := n }
    let s2 := { s1 with summoner_tag := t }
    match regionFetch with
    | none => [s1, s2]
    | some r => [s1, s2, { s2 with region := some (upperStr r) }]

/-- Trace of the states observable while the `@conn.ready` handler
`connect` (src lines 806-822) runs, one entry per global assignment,
starting from the state `s0` it was entered in: first `is_ready = True`,
then `current_phase = await resp.json()` (or `None` when the initial
phase request raises, modelled by `phaseFetch = none`), then the
assignments of `fetch_summoner_info`. Other threads can observe every
entry of this trace. -/
def connectTrace (s0 : SessionState) (phaseFetch : Option PyJson)
    (summFetch : Option (Option Str × Option Str)) (regionFetch : Option Str) :
    List SessionState :=
  let s1 := { s0 with is_ready := true }
  let s2 := { s1 with current_phase := phaseFetch }
  [s0, s1, s2] ++ fetchSummonerTrace s2 summFetch regionFetch

/-- Result of the `on_gameflow_phase` handler: the new state and whether
the handler re-fetched `GET /lol-gameflow/v1/gameflow-phase`. -/
structure PhaseHandlerResult where
  state : SessionState
  refetched : Bool
deriving DecidableEq

/-- Embedding of the push handler `on_gameflow_phase`
(src lines 859-875): a string `event.data` becomes the phase directly;
otherwise the phase endpoint is re-fetched and its value used
(`refetch = .ok v`); if the re-fetch raises (`refetch = .error ()`),
the `except` clause sets `current_phase = None` and the handler
returns normally. -/
def on_gameflow_phase (s : SessionState) (data : PyJson)
    (refetch : Except Unit PyJson) : PhaseHandlerResult :=
  match data with
  | .str v => { state := { s with current_phase := some (.str v) }, refetched := false }
  | .other =>
    match refetch with
    | .ok v => { state := { s with current_phase := some v }, refetched := true }
    | .error _ => { state := { s with current_phase := none }, refetched := true }

/-- The dict key `"gameName"`. -/
def kGameName : Str := ("gameName".toList)

/-- The dict key `"tagLine"`. -/
def kTagLine : Str := ("tagLine".toList)

/-- Python falsiness of the values the handlers test with
`if not summoner_name or not summoner_tag`: `None` (absent key) and the
empty string are falsy. -/
def isFalsyStr : Option Str → Bool
  | none => true
  | some s => s.isEmpty

/-- Whether `on_summoner_update` performs the fallback
`GET /lol-summoner/v1/current-summoner`: only when `event.data` is
truthy (a non-empty dict) and the extracted `gameName` or `tagLine` is
falsy. `event.data` is modelled as `Option` (for `None`) of an
association list (for the dict, whose truthiness is non-emptiness). -/
def summonerRefetches (data : Option (List (Str × Str))) : Bool :=
  match data with
  | none => false
  | some d =>
    !d.isEmpty && (isFalsyStr (d.lookup kGameName) || isFalsyStr (d.lookup kTagLine))

/-- The sequence of atomic global assignments performed by the push
handler `on_summoner_update` (src lines 824-857), in source order:
`summoner_name = event.data.get("gameName")`,
`summoner_tag = event.data.get("tagLine")`, then — when one of those is
falsy and the fallback identity fetch returns 200
(`refetch = some (n, t)`) — the two overwrites from the fetched body,
then — when the region fetch returns 200 (`regionFetch = some r`) —
`region = region_data.get("region", "").upper()`. A falsy `event.data`
(`None` or the empty dict) skips the whole body. -/
def summonerUpdateWrites (data : Option (List (Str × Str)))
    (refetch : Option (Option Str × Option Str)) (regionFetch : Option Str) :
    List (SessionState → SessionState) :=
  match data with
  | none => []
  | some d =>
    if d.isEmpty then []
    else
      ([fun s => { s with summoner_name := d.lookup kGameName },
        fun s => { s with summoner_tag := d.lookup kTagLine }] :
          List (SessionState → SessionState))
      ++ (if isFalsyStr (d.lookup kGameName) || isFalsyStr (d.lookup kTagLine) then
            match refetch with
            | some (n, t) =>
              ([fun s => { s with summoner_name := n },
                fun s => { s with summoner_tag := t }] :
                  List (SessionState → SessionState))
            | none => []
          else [])
      ++ (match regionFetch with
          | some r =>
            ([fun s => { s with region := some (upperStr r) }] :
              List (SessionState → SessionState))
          | none => [])

/-- Trace of the states observable while `on_summoner_update` runs:
the entry state followed by the state after each atomic assignment.
The reads interleaved by other threads (the tray-menu thread) can land
between any two assignments, so every entry is observable. -/
def summonerUpdateTrace (s0 : SessionState) (data : Option (List (Str × Str)))
    (refetch : Option (Option Str × Option Str)) (regionFetch : Option Str) :
    List SessionState :=
  List.scanl (fun s w => w s) s0 (summonerUpdateWrites data refetch regionFetch)

/-- The final state after `on_summoner_update` completes. -/
def on_summoner_update (s0 : SessionState) (data : Option (List (Str × Str)))
    (refetch : Option (Option Str × Option Str)) (regionFetch : Option Str) :
    SessionState :=
  (summonerUpdateWrites data refetch regionFetch).foldl (fun s w => w s) s0

/-- Observables of one invocation of the tray action `join_game_action`
(src lines 320-365): whether an error dialog was shown, whether the
remote backend (`GET /joinmatch`) was called, the scheduled local lobby
join (the parsed target name, tag and pin handed to `join_lobby`) if
any, and the session state (which the action never writes). -/
structure JoinActionResult where
  errorShown : Bool
  backendCalled : Bool
  scheduledJoin : Option (Str × Str × Str)
  state : SessionState
deriving DecidableEq

/-- Embedding of `join_game_action` (src lines 320-365): it first checks
`if not is_ready or current_phase is None` and bails out with an error
dialog before any request; then asks for a password (`pwd = none`
models a cancelled dialog, the empty string is equally falsy); then
calls the backend (`resp` is the outcome of `GET /joinmatch`);on a
non-200 status or empty body it reports an error; then parses the body
(a parse failure raises `ValueError`, caught by the `except` which
shows an error dialog); on success it schedules `join_lobby` with the
parsed target. -/
def join_game_action (s : SessionState) (pwd : Option Str) (resp : HttpResult) :
    JoinActionResult :=
  if !s.is_ready || s.current_phase.isNone then
    { errorShown := true, backendCalled := false, scheduledJoin := none, state := s }
  else
    match pwd with
    | none => { errorShown := false, backendCalled := false, scheduledJoin := none, state := s }
    | some p =>
      if p.isEmpty then
        { errorShown := false, backendCalled := false, scheduledJoin := none, state := s }
      else
        match resp with
        | .netError =>
          { errorShown := true, backendCalled := true, scheduledJoin := none, state := s }
        | .ok status text =>
          if status != 200 || text.isEmpty then
            { errorShown := true, backendCalled := true, scheduledJoin := none, state := s }
          else
            match parse_join_response text with
            | .malformed =>
              { errorShown := true, backendCalled := true, scheduledJoin := none, state := s }
            | .ok name tag pin =>
              { errorShown := false, backendCalled := true,
                scheduledJoin := some (name, tag, pin), state := s }

/-! Helper lemmas about the string model. -/

/-- Characterisation of a failing `splitFirst`: the separator does not
occur in the string. -/
theorem splitFirst_eq_none {sep : Char} {s : Str} :
    splitFirst sep s = none ↔ sep ∉ s := by
  induction s with
  | nil => simp [splitFirst]
  | cons c cs ih =>
    rw [splitFirst]
    by_cases h : c = sep
    · simp [h]
    · rcases hs : splitFirst sep cs with _ | ⟨l, r⟩
      · have hcs := ih.mp hs
        simp only [hs, List.mem_cons]
        constructor
        · intro _ hor
          rcases hor with hor | hor
          · exact h hor.symm
          · exact hcs hor
        · intro _
          rw [if_neg h]
      · have hmem : sep ∈ cs := by
          by_contra hc
          rw [ih.mpr hc] at hs
          cases hs
        simp [hs, h, List.mem_cons, hmem]

/-- Successful `splitFirst` at the first occurrence of the separator. -/
theorem splitFirst_append {sep : Char} {l : Str} (r : Str) (h : sep ∉ l) :
    splitFirst sep (l ++ sep :: r) = some (l, r) := by
  induction l with
  | nil => simp [splitFirst]
  | cons c cs ih =>
    have hc : ¬ c = sep := by
      intro hh
      exact h (by rw [hh]; exact List.mem_cons_self _ _)
    rw [List.cons_append, splitFirst, if_neg hc,
      ih (fun hm => h (List.mem_cons_of_mem c hm))]

/-- Stripping whitespace from both ends removes no interior characters
in a way that could introduce membership: members of the stripped string
were members of the original. -/
theorem mem_pyStrip {a : Char} {s : Str} (h : a ∈ pyStrip s) : a ∈ s := by
  unfold pyStrip at h
  rw [List.mem_reverse] at h
  have h1 := (List.dropWhile_sublist _).subset h
  rw [List.mem_reverse] at h1
  exact (List.dropWhile_sublist _).subset h1

/-! Claims C1 and C2. -/

/-- C1: for every list of lobby descriptors and every join target, the
lobby matcher first attempts an exact match — a lobby whose
`ownerDisplayName` equals the target name, an embedded space, `#`, and
the target tag, case-insensitively; if no exact match exists it attempts
a startswith match on the target name followed directly by `#` (no
space), case-insensitively; if neither rule matches any lobby, the join
reports the lobby-not-found error and no join POST is issued. -/
theorem c1_lobby_match_order (games : List Lobby) (summoner tag pin : Str)
    (resp : JoinResp) :
    ((games.find? (isExactMatch summoner tag)).isSome →
       ∃ g, findLobbyMatch games summoner tag = some g ∧ g ∈ games ∧
         isExactMatch summoner tag g = true)
  ∧ (games.find? (isExactMatch summoner tag) = none →
       findLobbyMatch games summoner tag = games.find? (isFallbackMatch summoner) ∧
       ∀ g, games.find? (isFallbackMatch summoner) = some g →
         g ∈ games ∧ isFallbackMatch summoner g = true)
  ∧ ((∀ g ∈ games, isExactMatch summoner tag g = false ∧
        isFallbackMatch summoner g = false) →
       do_join_lobby games summoner tag pin resp =
         { calls := [], outcome := .lobbyNotFound summoner tag }) := by
  refine ⟨?_, ?_, ?_⟩
  · intro h
    rcases ho : games.find? (isExactMatch summoner tag) with _ | g
    · rw [ho] at h
      simp at h
    · exact ⟨g, by unfold findLobbyMatch; rw [ho],
        List.mem_of_find?_eq_some ho, List.find?_some ho⟩
  · intro h
    refine ⟨by unfold findLobbyMatch; rw [h], ?_⟩
    intro g hg
    exact ⟨List.mem_of_find?_eq_some hg, List.find?_some hg⟩
  · intro h
    have he : games.find? (isExactMatch summoner tag) = none :=
      List.find?_eq_none.mpr (fun x hx => by simp [(h x hx).1])
    have hp : games.find? (isFallbackMatch summoner) = none :=
      List.find?_eq_none.mpr (fun x hx => by simp [(h x hx).2])
    have hm : findLobbyMatch games summoner tag = none := by
      unfold findLobbyMatch
      rw [he, hp]
    unfold do_join_lobby
    rw [hm]

/-- Witness for C1 at concrete inputs: the exact rule finds the lobby
owned by `Ana #NA1` for target Ana/NA1; with no exact entry the
startswith rule finds `Ana#NA1-smurf` for target Ana/NA1-smurf; with no
match at all the run reports lobby-not-found and issues no POST. -/
theorem c1_witness :
    (∃ g, findLobbyMatch [⟨("id1".toList), ("Ana #NA1".toList)⟩]
        ("Ana".toList) ("NA1".toList) = some g ∧
        g ∈ [(⟨("id1".toList), ("Ana #NA1".toList)⟩ : Lobby)] ∧
        isExactMatch ("Ana".toList) ("NA1".toList) g = true)
  ∧ findLobbyMatch [⟨("id2".toList), ("Ana#NA1-smurf".toList)⟩]
      ("Ana".toList) ("NA1-smurf".toList) =
      [(⟨("id2".toList), ("Ana#NA1-smurf".toList)⟩ : Lobby)].find?
        (isFallbackMatch ("Ana".toList))
  ∧ do_join_lobby [⟨("id3".toList), ("Bob #EUW".toList)⟩]
      ("Ana".toList) ("NA1".toList) ("pin".toList) { status := 200, message := none } =
      { calls := [], outcome := .lobbyNotFound ("Ana".toList) ("NA1".toList) } := by
  refine ⟨?_, ?_, ?_⟩
  · exact (c1_lobby_match_order [⟨("id1".toList), ("Ana #NA1".toList)⟩]
      ("Ana".toList) ("NA1".toList) ("pin".toList)
      { status := 200, message := none }).1 (by decide)
  · exact ((c1_lobby_match_order [⟨("id2".toList), ("Ana#NA1-smurf".toList)⟩]
      ("Ana".toList) ("NA1-smurf".toList) ("pin".toList)
      { status := 200, message := none }).2.1 (by decide)).1
  · exact (c1_lobby_match_order [⟨("id3".toList), ("Bob #EUW".toList)⟩]
      ("Ana".toList) ("NA1".toList) ("pin".toList)
      { status := 200, message := none }).2.2 (by decide)

/-- C2: the `joinMatch` response body is parsed by splitting on the
first `,` and then splitting the left part on the first `#`:
`Ana#NA1,abc123` yields target name Ana, tag NA1 and credential abc123;
a body with no `,` (such as `malformed`) yields the reported parse
failure — on such a body `join_game_action` shows the error dialog and
schedules nothing, it never crashes (the embedding is a total
function). -/
theorem c2_joinmatch_parse :
    (∀ body l r n t : Str, pyStrip body = l ++ ',' :: r → (',' : Char) ∉ l →
        l = n ++ '#' :: t → ('#' : Char) ∉ n →
        parse_join_response body = .ok n t r)
  ∧ parse_join_response ("Ana#NA1,abc123".toList) =
      .ok ("Ana".toList) ("NA1".toList) ("abc123".toList)
  ∧ (∀ body : Str, (',' : Char) ∉ body → parse_join_response body = .malformed)
  ∧ join_game_action
      { is_ready := true, current_phase := some (.str ("Lobby".toList)),
        summoner_name := none, summoner_tag := none, region := none }
      (some ("pw".toList)) (.ok 200 ("malformed".toList)) =
      { errorShown := true, backendCalled := true, scheduledJoin := none,
        state := { is_ready := true,
                   current_phase := some (.str ("Lobby".toList)),
                   summoner_name := none, summoner_tag := none,
                   region := none } } := by
  refine ⟨?_, by decide, ?_, by decide⟩
  · intro body l r n t hstrip hcomma hsplit hhash
    unfold parse_join_response
    rw [hstrip, splitFirst_append r hcomma]
    show (match splitFirst '#' l with
      | none => JoinGameParse.malformed
      | some (name, tag) => JoinGameParse.ok name tag r) = JoinGameParse.ok n t r
    rw [hsplit, splitFirst_append t hhash]
  · intro body hb
    unfold parse_join_response
    rw [splitFirst_eq_none.mpr (fun hm => hb (mem_pyStrip hm))]

/-- Witness for C2: the general split theorem applied to a concrete
body with surrounding whitespace, and the no-comma theorem applied to a
concrete comma-free body. -/
theorem c2_witness :
    parse_join_response ("  Ana#NA1,abc123 ".toList) =
      .ok ("Ana".toList) ("NA1".toList) ("abc123".toList)
  ∧ parse_join_response ("nocomma".toList) = .malformed := by
  constructor
  · exact c2_joinmatch_parse.1 ("  Ana#NA1,abc123 ".toList) ("Ana#NA1".toList)
      ("abc123".toList) ("Ana".toList) ("NA1".toList)
      (by decide) (by decide) (by decide) (by decide)
  · exact c2_joinmatch_parse.2.2.1 ("nocomma".toList) (by decide)

/-! Claim C3: the connector retry loop. -/

/-- Helper: the loop makes at most `fuel` calls to `connector.start()`. -/
theorem connectorRetryLoop_starts_le (outcome : Nat → Bool) :
    ∀ fuel a, (connectorRetryLoop outcome fuel a).starts ≤ fuel := by
  intro fuel
  induction fuel with
  | zero => intro a; simp [connectorRetryLoop]
  | succ n ih =>
    intro a
    rw [connectorRetryLoop]
    by_cases h : outcome a
    · simp [h]
    · simp only [h, Bool.false_eq_true, if_false]
      exact Nat.succ_le_succ (ih (a + 1))

/-- Helper: every delay taken by the loop is the fixed 10 seconds. -/
theorem connectorRetryLoop_sleeps (outcome : Nat → Bool) :
    ∀ fuel a, ∀ d ∈ (connectorRetryLoop outcome fuel a).sleeps, d = 10 := by
  intro fuel
  induction fuel with
  | zero => intro a d hd; simp [connectorRetryLoop] at hd
  | succ n ih =>
    intro a d hd
    rw [connectorRetryLoop] at hd
    by_cases h : outcome a
    · simp [h] at hd
    · simp only [h, Bool.false_eq_true, if_false, List.mem_cons] at hd
      rcases hd with rfl | hd
      · rfl
      · exact ih (a + 1) d hd

/-- Helper: when every consulted attempt fails, the loop runs its full
budget: `fuel` starts, `fuel` more failures, `fuel` sleeps of 10s, no
success. -/
theorem connectorRetryLoop_all_fail (outcome : Nat → Bool) :
    ∀ fuel a, (∀ i, i < a + fuel → outcome i = false) →
      connectorRetryLoop outcome fuel a =
        { starts := fuel, failures := a + fuel, succeeded := false,
          sleeps := List.replicate fuel 10 } := by
  intro fuel
  induction fuel with
  | zero => intro a h; simp [connectorRetryLoop]
  | succ n ih =>
    intro a h
    rw [connectorRetryLoop]
    have ha : outcome a = false := h a (by omega)
    simp only [ha, Bool.false_eq_true, if_false]
    rw [ih (a + 1) (fun i hi => h i (by omega))]
    have hadd : a + 1 + n = a + (n + 1) := by omega
    rw [hadd, List.replicate_succ]

/-- C3: the connect retry loop makes at most 30 attempts, every delay
between attempts is the fixed 10 seconds, and when all 30 attempts fail
it reports the exhaustion message exactly once, schedules no further
attempt (exactly 30 starts happen) and returns normally. -/
theorem c3_retry_bounded (outcome : Nat → Bool) :
    (start_connector outcome).loop.starts ≤ 30
  ∧ (∀ d ∈ (start_connector outcome).loop.sleeps, d = 10)
  ∧ ((∀ i, i < 30 → outcome i = false) →
       start_connector outcome =
         { loop := { starts := 30, failures := 30, succeeded := false,
                     sleeps := List.replicate 30 10 },
           exhaustedReports := 1 }) := by
  refine ⟨connectorRetryLoop_starts_le outcome 30 0,
    fun d hd => connectorRetryLoop_sleeps outcome 30 0 d hd, ?_⟩
  intro h
  show ConnectorRun.mk _ _ = _
  rw [show connectorRetryLoop outcome maxAttempts 0 =
      { starts := 30, failures := 30, succeeded := false,
        sleeps := List.replicate 30 10 } from
    connectorRetryLoop_all_fail outcome 30 0 (fun i hi => h i (by omega))]
  rfl

/-- Witness for C3: an always-failing connection makes exactly 30
attempts, sleeps 10 seconds each time, reports exhaustion once and
stops. -/
theorem c3_witness :
    start_connector (fun _ => false) =
      { loop := { starts := 30, failures := 30, succeeded := false,
                  sleeps := List.replicate 30 10 },
        exhaustedReports := 1 } :=
  (c3_retry_bounded (fun _ => false)).2.2 (fun _ _ => rfl)

/-! Claim C4: `authenticate`. -/

/-- C4 counterexample: the definitive not-registered outcome (404 with
the marker) is NOT distinguished from other non-200 responses or from
network failures at the interface of `authenticate` — all of them
return the same `False`, so the caller cannot tell a definitive
not-registered from a transient failure (and indeed `main` deletes the
stored credentials on either). -/
theorem c4_counterexample :
    (authenticate (.ok 404 ("User not found".toList))).result = false
  ∧ (authenticate (.ok 503 ("Service Unavailable".toList))).result = false
  ∧ (authenticate .netError).result = false
  ∧ (authenticate (.ok 404 ("User not found".toList))).result =
      (authenticate (.ok 503 ("Service Unavailable".toList))).result
  ∧ (authenticate (.ok 404 ("User not found".toList))).result =
      (authenticate .netError).result := by
  decide

/-- C4 as amended: `authenticate` returns true exactly on HTTP 200; a
404 whose body contains the not-found marker returns false and logs the
definitive not-registered message, and that log line is the only way
this outcome differs from other non-200 responses or network failures,
which equally return false. -/
theorem c4_auth_amended (status : Nat) (text : Str) :
    ((authenticate (.ok status text)).result = true ↔ status = 200)
  ∧ ((authenticate (.ok status text)).loggedNotRegistered = true ↔
       (status = 404 ∧ containsSub notFoundMarker text = true))
  ∧ (authenticate .netError).result = false
  ∧ (authenticate .netError).loggedNotRegistered = false := by
  by_cases hc : (status == 404 && containsSub notFoundMarker text) = true
  · have hand := (Bool.and_eq_true _ _).mp hc
    have h4 : status = 404 := by
      have := hand.1
      simpa using this
    have ha : authenticate (.ok status text) =
        { result := false, loggedNotRegistered := true } := by
      show (if (status == 404 && containsSub notFoundMarker text) = true
          then ({ result := false, loggedNotRegistered := true } : AuthResult)
          else ({ result := status == 200, loggedNotRegistered := false } : AuthResult)) =
        ({ result := false, loggedNotRegistered := true } : AuthResult)
      rw [if_pos hc]
    refine ⟨?_, ?_, rfl, rfl⟩
    · rw [ha]
      constructor
      · intro h
        cases h
      · intro h
        rw [h] at h4
        cases h4
    · rw [ha]
      simp [h4, hand.2]
  · have ha : authenticate (.ok status text) =
        { result := status == 200, loggedNotRegistered := false } := by
      show (if (status == 404 && containsSub notFoundMarker text) = true
          then ({ result := false, loggedNotRegistered := true } : AuthResult)
          else ({ result := status == 200, loggedNotRegistered := false } : AuthResult)) =
        ({ result := status == 200, loggedNotRegistered := false } : AuthResult)
      rw [if_neg hc]
    refine ⟨?_, ?_, rfl, rfl⟩
    · rw [ha]
      simp
    · rw [ha]
      constructor
      · intro h
        cases h
      · rintro ⟨h4, hm⟩
        rw [h4] at hc
        simp [hm] at hc

/-! Claim C5: the join POST sequence of `do_join_lobby`. -/

/-- C5: when a lobby is matched, `do_join_lobby` issues exactly one POST
to the join endpoint of the matched lobby with body
`asSpectator = False, password = pin`; on response status 200 it reports
success naming the target identity, otherwise it reports the join
failure with the `message` field of the error body, defaulting to
`"Unknown error"` when that field is absent. -/
theorem c5_join_sequence (games : List Lobby) (summoner tag pin : Str)
    (resp : JoinResp) (g : Lobby)
    (h : findLobbyMatch games summoner tag = some g) :
    (do_join_lobby games summoner tag pin resp).calls =
      [{ lobbyId := g.id, body := { asSpectator := false, password := pin } }]
  ∧ (do_join_lobby games summoner tag pin resp).outcome =
      (if resp.status = 200 then .success summoner tag
       else .joinFailed (resp.message.getD unknownError)) := by
  unfold do_join_lobby
  rw [h]
  by_cases hs : resp.status = 200
  · have : (resp.status == 200) = true := by simp [hs]
    rw [this, if_pos hs]
    exact ⟨rfl, rfl⟩
  · have : (resp.status == 200) = false := by simp [hs]
    rw [this, if_neg hs]
    exact ⟨rfl, rfl⟩

/-- Witness for C5 at a concrete matched lobby and a concrete 403
response without a message field. -/
theorem c5_witness :
    (do_join_lobby [⟨("id7".toList), ("Ana #NA1".toList)⟩]
        ("Ana".toList) ("NA1".toList) ("secret".toList)
        { status := 403, message := none }).calls =
      [{ lobbyId := ("id7".toList),
         body := { asSpectator := false, password := ("secret".toList) } }]
  ∧ (do_join_lobby [⟨("id7".toList), ("Ana #NA1".toList)⟩]
        ("Ana".toList) ("NA1".toList) ("secret".toList)
        { status := 403, message := none }).outcome =
      (if (403 : Nat) = 200 then .success ("Ana".toList) ("NA1".toList)
       else .joinFailed ((none : Option Str).getD unknownError)) :=
  c5_join_sequence [⟨("id7".toList), ("Ana #NA1".toList)⟩]
    ("Ana".toList) ("NA1".toList) ("secret".toList)
    { status := 403, message := none }
    ⟨("id7".toList), ("Ana #NA1".toList)⟩ (by decide)

/-! Claim C6: ordering of ready signal and initial phase read. -/

/-- Helper: the assignments of `fetch_summoner_info` never touch
`is_ready`. -/
theorem mem_fetchSummonerTrace_ready {s : SessionState}
    {summ : Option (Option Str × Option Str)} {reg : Option Str}
    {st : SessionState} (h : st ∈ fetchSummonerTrace s summ reg) :
    st.is_ready = s.is_ready := by
  unfold fetchSummonerTrace at h
  rcases summ with _ | ⟨n, t⟩
  · simp at h
  · rcases reg with _ | r
    · simp only [List.mem_cons, List.not_mem_nil, or_false] at h
      rcases h with rfl | rfl <;> rfl
    · simp only [List.mem_cons, List.not_mem_nil, or_false] at h
      rcases h with rfl | rfl | rfl <;> rfl

/-- C6 counterexample: the `connect` handler sets `is_ready = True`
BEFORE performing the initial phase read, so an observer (the trace
entry at index 1) sees `ready = true` while `current_phase` is still
unpopulated, even on a run where the phase read then succeeds. -/
theorem c6_counterexample :
    (connectTrace initState (some (.str ("Lobby".toList)))
        (some (some ("Ana".toList), some ("NA1".toList)))
        (some ("na".toList))).get? 1 =
      some { is_ready := true, current_phase := none, summoner_name := none,
             summoner_tag := none, region := none } := by
  decide

/-- C6 as amended: on every successful connection the ready flag is
signaled FIRST (trace index 1), and only then does the initial phase
read populate the session state (trace index 2); from the ready signal
on, every observable state has `ready = true`, so observers can see
`ready = true` while the initial phase read has not yet completed. -/
theorem c6_ready_before_phase (s0 : SessionState) (phaseFetch : Option PyJson)
    (summFetch : Option (Option Str × Option Str)) (regionFetch : Option Str) :
    (connectTrace s0 phaseFetch summFetch regionFetch).get? 1 =
      some { s0 with is_ready := true }
  ∧ (connectTrace s0 phaseFetch summFetch regionFetch).get? 2 =
      some { s0 with is_ready := true, current_phase := phaseFetch }
  ∧ ∀ st ∈ (connectTrace s0 phaseFetch summFetch regionFetch).drop 1,
      st.is_ready = true := by
  refine ⟨rfl, rfl, ?_⟩
  intro st hst
  have hst' : st ∈ ({ s0 with is_ready := true } ::
      { s0 with is_ready := true, current_phase := phaseFetch } ::
      fetchSummonerTrace { s0 with is_ready := true, current_phase := phaseFetch }
        summFetch regionFetch) := hst
  rcases List.mem_cons.mp hst' with rfl | h2
  · rfl
  rcases List.mem_cons.mp h2 with rfl | h3
  · rfl
  · exact (mem_fetchSummonerTrace_ready h3).trans rfl

/-- Witness for C6 as amended, at a concrete run: the ready flag is the
assignment observable at index 1, and that observable state already has
`ready = true`. -/
theorem c6_witness :
    (connectTrace initState (some (.str ("Lobby".toList)))
        (some (some ("Ana".toList), some ("NA1".toList)))
        (some ("na".toList))).get? 1 =
      some { initState with is_ready := true }
  ∧ ({ initState with is_ready := true } : SessionState).is_ready = true := by
  constructor
  · exact (c6_ready_before_phase initState (some (.str ("Lobby".toList)))
      (some (some ("Ana".toList), some ("NA1".toList))) (some ("na".toList))).1
  · exact (c6_ready_before_phase initState (some (.str ("Lobby".toList)))
      (some (some ("Ana".toList), some ("NA1".toList))) (some ("na".toList))).2.2
      { initState with is_ready := true } (by decide)

/-! Claim C7: the gameflow phase push handler. -/

/-- C7: for every phase push event, a string payload becomes the current
phase directly (no re-fetch); a non-string payload makes the handler
re-fetch the phase endpoint and use the fetched value; a failure during
handling (the re-fetch raising) leaves the phase absent and the handler
still returns normally — the embedding is a total function, no
exception escapes. -/
theorem c7_phase_handler (s : SessionState) (data : PyJson)
    (refetch : Except Unit PyJson) :
    (∀ v, data = .str v →
       on_gameflow_phase s data refetch =
         { state := { s with current_phase := some (.str v) }, refetched := false })
  ∧ (data = .other → (on_gameflow_phase s data refetch).refetched = true)
  ∧ (∀ v, data = .other → refetch = .ok v →
       on_gameflow_phase s data refetch =
         { state := { s with current_phase := some v }, refetched := true })
  ∧ (data = .other → refetch = .error () →
       on_gameflow_phase s data refetch =
         { state := { s with current_phase := none }, refetched := true }) := by
  refine ⟨?_, ?_, ?_, ?_⟩
  · rintro v rfl
    rfl
  · rintro rfl
    cases refetch <;> rfl
  · rintro v rfl rfl
    rfl
  · rintro rfl rfl
    rfl

/-- Witness for C7 at concrete events: a string payload, a non-string
payload with a successful re-fetch, and a non-string payload whose
re-fetch raises. -/
theorem c7_witness :
    on_gameflow_phase initState (.str ("InProgress".toList)) (.error ()) =
      { state := { initState with current_phase := some (.str ("InProgress".toList)) },
        refetched := false }
  ∧ on_gameflow_phase initState .other (.ok (.str ("Lobby".toList))) =
      { state := { initState with current_phase := some (.str ("Lobby".toList)) },
        refetched := true }
  ∧ on_gameflow_phase initState .other (.error ()) =
      { state := { initState with current_phase := none }, refetched := true } := by
  refine ⟨?_, ?_, ?_⟩
  · exact (c7_phase_handler initState (.str ("InProgress".toList)) (.error ())).1
      ("InProgress".toList) rfl
  · exact (c7_phase_handler initState .other (.ok (.str ("Lobby".toList)))).2.2.1
      (.str ("Lobby".toList)) rfl rfl
  · exact (c7_phase_handler initState .other (.error ())).2.2.2 rfl rfl

/-! Claim C8: the summoner-identity push handler and its fallback
re-fetch. -/

/-- C8 counterexample: an identity push event whose payload is the
EMPTY dict is partial data — it is missing both `gameName` and
`tagLine` — yet `if event.data:` treats it as falsy and skips the whole
handler body: no fallback re-fetch happens (the available fetch result
is ignored) and the state is unchanged; the same holds for a `None`
payload. -/
theorem c8_counterexample :
    summonerRefetches (some []) = false
  ∧ on_summoner_update initState (some [])
      (some (some ("Ana".toList), some ("NA1".toList))) (some ("na".toList)) =
      initState
  ∧ summonerRefetches none = false
  ∧ on_summoner_update initState none
      (some (some ("Ana".toList), some ("NA1".toList))) (some ("na".toList)) =
      initState :=
  ⟨rfl, rfl, rfl, rfl⟩

/-- C8 as amended: for every identity push event whose payload dict is
non-empty and whose extracted `gameName` or `tagLine` is missing or
empty, the handler falls back to an explicit re-fetch of the
current-summoner endpoint and, when that fetch returns 200, uses the
fetched name and tag; events whose payload is `None` or the empty dict
are skipped entirely — no re-fetch, no state change. -/
theorem c8_summoner_refetch (s : SessionState) (d : List (Str × Str))
    (n t : Option Str) (regionFetch : Option Str) (hne : d ≠ [])
    (hfalsy : (isFalsyStr (d.lookup kGameName) || isFalsyStr (d.lookup kTagLine)) = true) :
    summonerRefetches (some d) = true
  ∧ (on_summoner_update s (some d) (some (n, t)) regionFetch).summoner_name = n
  ∧ (on_summoner_update s (some d) (some (n, t)) regionFetch).summoner_tag = t
  ∧ summonerRefetches none = false
  ∧ (∀ r2 rf2, on_summoner_update s none r2 rf2 = s)
  ∧ summonerRefetches (some []) = false
  ∧ (∀ r2 rf2, on_summoner_update s (some []) r2 rf2 = s) := by
  have hie : d.isEmpty = false := List.isEmpty_eq_false.mpr hne
  refine ⟨?_, ?_, ?_, rfl, fun _ _ => rfl, rfl, fun _ _ => rfl⟩
  · show (!d.isEmpty &&
      (isFalsyStr (d.lookup kGameName) || isFalsyStr (d.lookup kTagLine))) = true
    rw [hie, hfalsy]
    rfl
  · rcases regionFetch with _ | r <;>
      simp [on_summoner_update, summonerUpdateWrites, hie, hfalsy]
  · rcases regionFetch with _ | r <;>
      simp [on_summoner_update, summonerUpdateWrites, hie, hfalsy]

/-- Witness for C8 as amended: a non-empty payload dict carrying only
an unrelated key triggers the fallback fetch, whose result populates
name and tag. -/
theorem c8_witness :
    summonerRefetches (some [(("puuid".toList), ("x".toList))]) = true
  ∧ (on_summoner_update initState (some [(("puuid".toList), ("x".toList))])
       (some (some ("Ana".toList), some ("NA1".toList))) none).summoner_name =
      some ("Ana".toList)
  ∧ (on_summoner_update initState (some [(("puuid".toList), ("x".toList))])
       (some (some ("Ana".toList), some ("NA1".toList))) none).summoner_tag =
      some ("NA1".toList) := by
  refine ⟨?_, ?_, ?_⟩
  · exact (c8_summoner_refetch initState [(("puuid".toList), ("x".toList))]
      (some ("Ana".toList)) (some ("NA1".toList)) none (by decide) (by decide)).1
  · exact (c8_summoner_refetch initState [(("puuid".toList), ("x".toList))]
      (some ("Ana".toList)) (some ("NA1".toList)) none (by decide) (by decide)).2.1
  · exact (c8_summoner_refetch initState [(("puuid".toList), ("x".toList))]
      (some ("Ana".toList)) (some ("NA1".toList)) none (by decide) (by decide)).2.2.1

/-! Claim C9: atomicity of session-state snapshots. -/

/-- C9 counterexample: the four session fields are plain globals written
one assignment at a time; during one `on_summoner_update` invocation
that updates both the identity and the region, the observable state
after the tag assignment (trace index 2) already shows the new identity
`Ana#NA1` while `region` still holds the old `EUW` — the same
invocation then writes `region = NA` (index 3). A snapshot read between
the two assignments therefore sees exactly one of identity/region
reflecting the newer event, refuting atomicity. -/
theorem c9_counterexample :
    (summonerUpdateTrace
        { is_ready := true, current_phase := some (.str ("Lobby".toList)),
          summoner_name := some ("Old".toList), summoner_tag := some ("OLD".toList),
          region := some ("EUW".toList) }
        (some [(kGameName, ("Ana".toList)), (kTagLine, ("NA1".toList))]) none
        (some ("na".toList))).get? 2 =
      some { is_ready := true, current_phase := some (.str ("Lobby".toList)),
             summoner_name := some ("Ana".toList), summoner_tag := some ("NA1".toList),
             region := some ("EUW".toList) }
  ∧ (summonerUpdateTrace
        { is_ready := true, current_phase := some (.str ("Lobby".toList)),
          summoner_name := some ("Old".toList), summoner_tag := some ("OLD".toList),
          region := some ("EUW".toList) }
        (some [(kGameName, ("Ana".toList)), (kTagLine, ("NA1".toList))]) none
        (some ("na".toList))).get? 3 =
      some { is_ready := true, current_phase := some (.str ("Lobby".toList)),
             summoner_name := some ("Ana".toList), summoner_tag := some ("NA1".toList),
             region := some ("NA".toList) } := by
  decide

/-- C9 as amended: snapshots are NOT atomic across the four fields —
for every identity push event carrying a (non-empty) name and tag
together with a successful region fetch, the state observable after the
two identity assignments (trace index 2) shows the new identity with
the region still unchanged from before the invocation, and only the
final state (trace index 3, equal to the handler result) shows the
region written by the same invocation; reads at handler boundaries are
consistent. -/
theorem c9_snapshot_not_atomic (s0 : SessionState) (nv tv r : Str)
    (hn : nv ≠ []) (ht : tv ≠ []) :
    (summonerUpdateTrace s0
        (some [(kGameName, nv), (kTagLine, tv)]) none (some r)).get? 2 =
      some { s0 with summoner_name := some nv, summoner_tag := some tv }
  ∧ (summonerUpdateTrace s0
        (some [(kGameName, nv), (kTagLine, tv)]) none (some r)).get? 3 =
      some { s0 with summoner_name := some nv, summoner_tag := some tv,
                     region := some (upperStr r) }
  ∧ on_summoner_update s0
        (some [(kGameName, nv), (kTagLine, tv)]) none (some r) =
      { s0 with summoner_name := some nv, summoner_tag := some tv,
                region := some (upperStr r) } := by
  have hk : (kTagLine == kGameName) = false := by decide
  have hl1 : (([(kGameName, nv), (kTagLine, tv)] : List (Str × Str)).lookup kGameName) =
      some nv := by
    simp [List.lookup]
  have hl2 : (([(kGameName, nv), (kTagLine, tv)] : List (Str × Str)).lookup kTagLine) =
      some tv := by
    simp [List.lookup, hk]
  have hf1 : isFalsyStr (some nv) = false := by
    cases nv with
    | nil => exact absurd rfl hn
    | cons a l => rfl
  have hf2 : isFalsyStr (some tv) = false := by
    cases tv with
    | nil => exact absurd rfl ht
    | cons a l => rfl
  refine ⟨?_, ?_, ?_⟩ <;>
    simp [summonerUpdateTrace, on_summoner_update, summonerUpdateWrites,
      hl1, hl2, hf1, hf2, List.scanl]

/-- Witness for C9 as amended at a concrete event. -/
theorem c9_witness :
    (summonerUpdateTrace initState
        (some [(kGameName, ("Ana".toList)), (kTagLine, ("NA1".toList))]) none
        (some ("na".toList))).get? 2 =
      some { initState with summoner_name := some ("Ana".toList),
                            summoner_tag := some ("NA1".toList) }
  ∧ (summonerUpdateTrace initState
        (some [(kGameName, ("Ana".toList)), (kTagLine, ("NA1".toList))]) none
        (some ("na".toList))).get? 3 =
      some { initState with summoner_name := some ("Ana".toList),
                            summoner_tag := some ("NA1".toList),
                            region := some (upperStr ("na".toList)) } := by
  constructor
  · exact (c9_snapshot_not_atomic initState ("Ana".toList) ("NA1".toList)
      ("na".toList) (by decide) (by decide)).1
  · exact (c9_snapshot_not_atomic initState ("Ana".toList) ("NA1".toList)
      ("na".toList) (by decide) (by decide)).2.1

/-! Claim C10: the join-game guard. -/

/-- C10: whenever the client is not ready or the current phase is
unknown, `join_game_action` reports an error dialog and returns without
calling the remote backend and without scheduling any local lobby join,
leaving the session state unchanged. -/
theorem c10_join_guard (s : SessionState) (pwd : Option Str) (resp : HttpResult)
    (h : s.is_ready = false ∨ s.current_phase = none) :
    join_game_action s pwd resp =
      { errorShown := true, backendCalled := false, scheduledJoin := none,
        state := s } := by
  have hc : (!s.is_ready || s.current_phase.isNone) = true := by
    rcases h with h | h
    · rw [h]
      rfl
    · rw [h]
      simp
  unfold join_game_action
  rw [hc]
  rfl

/-- Witness for C10: the initial (not yet ready) state causes the guard
to fire even with a valid password and a well-formed backend response
available. -/
theorem c10_witness :
    join_game_action initState (some ("pw".toList))
      (.ok 200 ("Ana#NA1,abc123".toList)) =
      { errorShown := true, backendCalled := false, scheduledJoin := none,
        state := initState } :=
  c10_join_guard initState (some ("pw".toList))
    (.ok 200 ("Ana#NA1,abc123".toList)) (Or.inl rfl)

end LoLClient
